import Mathlib

/-!
Verification of the guest-validation harness in src/src/main.rs
(cloud-hypervisor, 2019 snapshot).

The development shallowly embeds the harness logic:
the retry loop of Guest::ssh_command, the placeholder substitution of
Guest::prepare_cloudinit, the artifact list of Guest::prepare_files, the
kill-and-reap cleanup pattern of the scenario tests, the scenario
control flow of test_simple_launch, and the fatal-error paths of main.
Machine integers never overflow here, so counters and durations are Nat.
-/

namespace CHarness

/-! ## Guest::ssh_command (main.rs lines 315-357)

One probe attempt is the closure at lines 326-345: connect, handshake,
authenticate, open a channel, exec, then best-effort read/close/wait_close
whose results are discarded.  The outside world that one attempt interacts
with is abstracted as a record of stage outcomes. -/

/-- Claim model: the error enum declared inside Guest::ssh_command
(main.rs lines 317-322). -/
inductive ProbeError where
  | Connection
  | Authentication
  | Command
deriving DecidableEq

/-- Outcomes of the external interactions of a single probe attempt.
The readOk / closeOk / waitCloseOk fields record whether
channel.read_to_string, channel.close and channel.wait_close succeed;
the code discards those results (lines 339-343), and output is whatever
read_to_string appended to the buffer s (possibly partial or empty). -/
structure AttemptEnv where
  connectOk : Bool
  handshakeOk : Bool
  authOk : Bool
  channelOk : Bool
  execOk : Bool
  readOk : Bool
  closeOk : Bool
  waitCloseOk : Bool
  output : List Char
deriving DecidableEq

/-- One probe attempt, following the closure at main.rs lines 326-345:
TcpStream::connect and Session::handshake map errors to Connection,
userauth_password maps to Authentication, channel_session and exec map
to Command; after a successful exec the read/close/wait_close results
are intentionally ignored and the attempt returns Ok. -/
def attemptRun (env : AttemptEnv) : Except ProbeError (List Char) :=
  if env.connectOk = false then Except.error ProbeError.Connection
  else if env.handshakeOk = false then Except.error ProbeError.Connection
  else if env.authOk = false then Except.error ProbeError.Authentication
  else if env.channelOk = false then Except.error ProbeError.Command
  else if env.execOk = false then Except.error ProbeError.Command
  else Except.ok env.output

/-- Result of one ssh_command call: either the loop breaks with the
captured output, or the call panics with the last error.  The sleeps
field lists the backoff sleeps performed, in order, in seconds; the
attempts field counts the probe attempts made. -/
inductive SshResult where
  | success (out : List Char) (sleeps : List Nat) (attempts : Nat)
  | panicked (lastError : ProbeError) (sleeps : List Nat) (attempts : Nat)
deriving DecidableEq

/-- Backoff sleeps performed during the call. -/
def SshResult.sleepList : SshResult → List Nat
  | SshResult.success _ s _ => s
  | SshResult.panicked _ s _ => s

/-- Number of probe attempts performed during the call. -/
def SshResult.attemptCount : SshResult → Nat
  | SshResult.success _ _ n => n
  | SshResult.panicked _ _ n => n

/-- Error surfaced by the panic, if the call panicked. -/
def SshResult.errorKind : SshResult → Option ProbeError
  | SshResult.success _ _ _ => none
  | SshResult.panicked e _ _ => some e

/-- Total backoff sleep time of the call, in seconds. -/
def SshResult.sleepTotal (r : SshResult) : Nat := r.sleepList.sum

/-- The retry loop of main.rs lines 324-355.  In the code a counter
starts at 0 and is incremented on each failure; the call panics when the
counter reaches 6, otherwise it sleeps 10 * counter seconds and retries.
Here i is the index of the current attempt (so the counter after a
failure of attempt i equals i + 1) and fuel is the number of further
failures still allowed before the panic, i.e. 5 - i; sshCommand starts
the loop with fuel 5 at attempt 0.  On success the loop breaks at once,
performing no sleep (the break at line 346 skips the sleep at line 354). -/
def sshGo (envs : Nat → AttemptEnv) (fuel i : Nat) (sleeps : List Nat) :
    SshResult :=
  match attemptRun (envs i) with
  | Except.ok out => SshResult.success out sleeps (i + 1)
  | Except.error e =>
    match fuel with
    | 0 => SshResult.panicked e sleeps (i + 1)
    | f + 1 => sshGo envs f (i + 1) (sleeps ++ [10 * (i + 1)])

/-- Guest::ssh_command on a given sequence of attempt environments. -/
def sshCommand (envs : Nat → AttemptEnv) : SshResult :=
  sshGo envs 5 0 []

/-! ## String replacement (Rust str::replace)

Guest::prepare_cloudinit (main.rs lines 252-254) calls String::replace
three times.  Rust str::replace substitutes every leftmost
non-overlapping occurrence of the pattern.  Strings are embedded as
lists of characters. -/

/-- Worker for the replacement scan.  With skip = 0 it scans the input:
when the pattern is a prefix of the remaining input it emits the
replacement and then skips the rest of the matched pattern (the head
character is consumed by this step, so pat.length - 1 characters
remain to skip); otherwise it copies one character.  A positive skip
discards that many characters before scanning resumes. -/
def repGo (pat rep : List Char) : Nat → List Char → List Char
  | _, [] => []
  | k + 1, _ :: rest => repGo pat rep k rest
  | 0, c :: rest =>
    if pat.isPrefixOf (c :: rest) then
      rep ++ repGo pat rep (pat.length - 1) rest
    else
      c :: repGo pat rep 0 rest

/-- Rust String::replace on s, replacing every leftmost non-overlapping
occurrence of pat by rep.  An empty pattern matches at every position,
so the replacement is inserted before every character and at the end,
exactly as in Rust. -/
def rustReplace (s pat rep : List Char) : List Char :=
  if pat.isEmpty then rep ++ (s.map (fun c => c :: rep)).flatten
  else repGo pat rep 0 s

/-! ## Guest::prepare_cloudinit (main.rs lines 223-276)

The function copies meta_data.json from the template directory into the
image content unchanged (fs::copy, lines 239-243) and rewrites user_data
through three replace calls (lines 252-254).  The content transformation
is embedded; the mkdosfs / mcopy invocations that pack the directory
into a FAT image are opaque external tools outside this model. -/

/-- The placeholder tokens of the user_data template and, equally, the
identity values set by Guest::new (main.rs lines 213-215). -/
def hostPlaceholder : List Char := "192.168.2.1".toList

/-- Guest placeholder token, and the default guest_ip of Guest::new. -/
def guestPlaceholder : List Char := "192.168.2.2".toList

/-- MAC placeholder token, and the default guest_mac of Guest::new. -/
def macPlaceholder : List Char := "12:34:56:78:90:ab".toList

/-- Contents of the cloud-init template directory. -/
structure CloudInitTemplate where
  metaData : List Char
  userData : List Char

/-- Contents placed into the cloud-init image directory. -/
structure CloudInitImage where
  metaData : List Char
  userData : List Char

/-- The user_data rewriting of main.rs lines 252-254: replace the host
placeholder by host_ip, then the guest placeholder by guest_ip, then
the MAC placeholder by guest_mac. -/
def renderUserData (userData hostIp guestIp guestMac : List Char) :
    List Char :=
  rustReplace
    (rustReplace (rustReplace userData hostPlaceholder hostIp)
      guestPlaceholder guestIp)
    macPlaceholder guestMac

/-- Content transformation of Guest::prepare_cloudinit: meta_data.json
is copied byte for byte, user_data is rendered. -/
def prepareCloudinit (tpl : CloudInitTemplate)
    (hostIp guestIp guestMac : List Char) : CloudInitImage :=
  { metaData := tpl.metaData
    userData := renderUserData tpl.userData hostIp guestIp guestMac }

/-! ## Guest::prepare_files (main.rs lines 278-306) -/

/-- Path of the copied OS disk (main.rs lines 291-292). -/
def osdiskPath (tmpDir : String) : String := tmpDir ++ "/osdisk.img"

/-- Path of the copied raw OS disk (main.rs lines 293-294). -/
def osdiskRawPath (tmpDir : String) : String := tmpDir ++ "/osdisk_raw.img"

/-- Path returned by prepare_cloudinit (main.rs lines 224-225). -/
def cloudinitDiskPath (tmpDir : String) : String := tmpDir ++ "/cloudinit"

/-- The disks vector assembled at main.rs line 302:
vec![osdisk_path, cloudinit_path, osdisk_raw_path]. -/
def prepareFilesDisks (tmpDir : String) : List String :=
  [osdiskPath tmpDir, cloudinitDiskPath tmpDir, osdiskRawPath tmpDir]

/-! ## Process termination (main.rs lines 418-419)

Every scenario ends its happy path with
let _ = child.kill(); let _ = child.wait();
Child::kill fails once the child has already been reaped by wait, and
succeeds (resending a signal to a zombie is a no-op) otherwise;
Child::wait blocks until exit, reaps, and is total here.  Both results
are discarded by the code. -/

/-- State of one spawned child process handle. -/
structure ChildHandle where
  alive : Bool
  reaped : Bool
deriving DecidableEq

/-- Error kind returned by Child::kill on an already-reaped child. -/
inductive OsError where
  | invalidInput
deriving DecidableEq

/-- Child::kill — errors after the child was reaped, otherwise stops
the process. -/
def childKill (c : ChildHandle) : Except OsError ChildHandle :=
  if c.reaped then Except.error OsError.invalidInput
  else Except.ok { c with alive := false }

/-- Child::wait — blocks until the child exits and reaps it; on an
already-reaped child it returns the stored status. -/
def childWait (_ : ChildHandle) : Except OsError ChildHandle :=
  Except.ok { alive := false, reaped := true }

/-- The cleanup pattern of main.rs lines 418-419: kill then wait, each
result discarded, so an error leaves the state of that step unchanged
and never escapes. -/
def terminate (c : ChildHandle) : ChildHandle :=
  let c1 := match childKill c with
    | Except.ok c2 => c2
    | Except.error _ => c
  match childWait c1 with
  | Except.ok c2 => c2
  | Except.error _ => c1

/-- Terminate the handle at index p of a family of handles; handles are
disjointly owned, so only the selected one is touched. -/
def terminateAt (hs : Nat → ChildHandle) (p : Nat) : Nat → ChildHandle :=
  fun q => if q = p then terminate (hs q) else hs q

/-! ## Scenario control flow (test_simple_launch, main.rs lines 394-422)

The scenario creates a Guest (whose TempDir is removed when the value
is dropped), spawns the hypervisor child, runs probes and assertions,
and on its happy path kills and reaps the child before the block ends.
The aver_eq!/aver! macros of the credibility crate record assertion
failures and defer the panic to the end of the test block, after the
cleanup lines, so assertion outcomes do not alter cleanup.  A probe
that exhausts its retry budget, however, panics inside ssh_command:
unwinding drops the Child handle, which in Rust does not kill the
process, and then drops the Guest, which removes the TempDir. -/

/-- Observable teardown-relevant events of one scenario run. -/
inductive ScenarioEvent where
  | spawnChild
  | killChild
  | reapChild
  | removeTmpDir
deriving DecidableEq

/-- Outcome of one ssh_command call inside the scenario: it either
returns (possibly after retries) or panics with the budget exhausted. -/
inductive ProbeOutcome where
  | completed
  | exhausted
deriving DecidableEq

/-- Whether the sequence of probe calls all return, or some call panics
(later calls then never run). -/
def probesComplete : List ProbeOutcome → Bool
  | [] => true
  | ProbeOutcome.completed :: rest => probesComplete rest
  | ProbeOutcome.exhausted :: _ => false

/-- Event trace of test_simple_launch, parameterized by the recorded
assertion results (which credibility defers past the cleanup, so they
do not influence the trace) and by the outcomes of the probe calls.
If every probe returns, the child is killed and reaped and then the
TempDir is removed; if a probe panics, unwinding drops the Child
without killing it and removes the TempDir. -/
def scenarioTrace (averResults : List Bool) (probes : List ProbeOutcome) :
    List ScenarioEvent :=
  let _ := averResults
  ScenarioEvent.spawnChild ::
    (if probesComplete probes then
      [ScenarioEvent.killChild, ScenarioEvent.reapChild,
        ScenarioEvent.removeTmpDir]
    else
      [ScenarioEvent.removeTmpDir])

/-! ## main (main.rs lines 15-148)

The fatal paths of main: a missing --kernel argument hits
.expect("Missing argument: kernel"), a Rust panic whose diagnostic goes
to standard error and whose process exit code is 101; a configuration
parse failure prints "Failed parsing parameters {:?}" on standard
output and exits 1; a boot failure prints "Guest boot failed: {}" on
standard output and exits 1. -/

/-- The execution condition of one run of main. -/
inductive VmRunCase where
  | missingKernel
  | parseFailure (err : List Char)
  | bootFailure (err : List Char)
  | bootOk

/-- Output stream of a diagnostic. -/
inductive OutChannel where
  | stdout
  | stderr
deriving DecidableEq

/-- A printed diagnostic: its stream and its text. -/
structure Diagnostic where
  channel : OutChannel
  message : List Char

/-- Outcome of main. -/
inductive MainOutcome where
  | exited (code : Nat) (diag : Diagnostic)
  | finished

/-- Text printed by the Rust panic runtime for the expect at
main.rs line 107. -/
def panicDiagnostic : List Char :=
  "thread main panicked at Missing argument: kernel".toList

/-- The fatal-path behavior of main (main.rs lines 105-147). -/
def mainRun : VmRunCase → MainOutcome
  | VmRunCase.missingKernel =>
    MainOutcome.exited 101 { channel := OutChannel.stderr,
                             message := panicDiagnostic }
  | VmRunCase.parseFailure err =>
    MainOutcome.exited 1 { channel := OutChannel.stdout,
                           message := "Failed parsing parameters ".toList ++ err }
  | VmRunCase.bootFailure err =>
    MainOutcome.exited 1 { channel := OutChannel.stdout,
                           message := "Guest boot failed: ".toList ++ err }
  | VmRunCase.bootOk => MainOutcome.finished

/-- Exit code of an outcome, if the process exited through a fatal
path. -/
def MainOutcome.exitCode : MainOutcome → Option Nat
  | MainOutcome.exited code _ => some code
  | MainOutcome.finished => none

/-- Stream of the fatal diagnostic, if any. -/
def MainOutcome.diagChannel : MainOutcome → Option OutChannel
  | MainOutcome.exited _ d => some d.channel
  | MainOutcome.finished => none

/-- Text of the fatal diagnostic, if any. -/
def MainOutcome.diagMessage : MainOutcome → Option (List Char)
  | MainOutcome.exited _ d => some d.message
  | MainOutcome.finished => none

/-! ## Concrete attempt environments used by the witnesses -/

/-- An attempt against a closed port: the TCP connect fails. -/
def connRefusedEnv : AttemptEnv :=
  { connectOk := false, handshakeOk := true, authOk := true,
    channelOk := true, execOk := true, readOk := true, closeOk := true,
    waitCloseOk := true, output := [] }

/-- An attempt that connects but fails password authentication. -/
def authFailEnv : AttemptEnv :=
  { connectOk := true, handshakeOk := true, authOk := false,
    channelOk := true, execOk := true, readOk := true, closeOk := true,
    waitCloseOk := true, output := [] }

/-- An attempt whose handshake fails. -/
def handshakeFailEnv : AttemptEnv :=
  { connectOk := true, handshakeOk := false, authOk := true,
    channelOk := true, execOk := true, readOk := true, closeOk := true,
    waitCloseOk := true, output := [] }

/-- An attempt whose channel open fails. -/
def channelFailEnv : AttemptEnv :=
  { connectOk := true, handshakeOk := true, authOk := true,
    channelOk := false, execOk := true, readOk := true, closeOk := true,
    waitCloseOk := true, output := [] }

/-- An attempt whose remote command execution fails. -/
def execFailEnv : AttemptEnv :=
  { connectOk := true, handshakeOk := true, authOk := true,
    channelOk := true, execOk := false, readOk := true, closeOk := true,
    waitCloseOk := true, output := [] }

/-- A successful attempt whose best-effort output read, channel close
and wait all fail, leaving a partial captured output. -/
def readFailEnv : AttemptEnv :=
  { connectOk := true, handshakeOk := true, authOk := true,
    channelOk := true, execOk := true, readOk := false, closeOk := false,
    waitCloseOk := false, output := "par".toList }

/-! ## Lemmas about the retry loop -/

theorem sshGo_ok {envs : Nat → AttemptEnv} {i : Nat} {out : List Char}
    (h : attemptRun (envs i) = Except.ok out) (fuel : Nat)
    (sleeps : List Nat) :
    sshGo envs fuel i sleeps = SshResult.success out sleeps (i + 1) := by
  rw [sshGo.eq_def, h]

theorem sshGo_fail {envs : Nat → AttemptEnv} {i : Nat} {e : ProbeError}
    (h : attemptRun (envs i) = Except.error e) (f : Nat)
    (sleeps : List Nat) :
    sshGo envs (f + 1) i sleeps =
      sshGo envs f (i + 1) (sleeps ++ [10 * (i + 1)]) := by
  rw [sshGo.eq_def, h]

theorem sshGo_exhaust {envs : Nat → AttemptEnv} {i : Nat} {e : ProbeError}
    (h : attemptRun (envs i) = Except.error e) (sleeps : List Nat) :
    sshGo envs 0 i sleeps = SshResult.panicked e sleeps (i + 1) := by
  rw [sshGo.eq_def, h]

/-- Sleeps performed by k consecutive failures when the failing
attempts start at index i: 10 * (i + 1), 10 * (i + 2), ... seconds. -/
def backoffSleeps (i k : Nat) : List Nat :=
  match k with
  | 0 => []
  | k + 1 => 10 * (i + 1) :: backoffSleeps (i + 1) k

theorem backoffSleeps_eq (k : Nat) :
    ∀ i, backoffSleeps i k = (List.range k).map (fun j => 10 * (i + j + 1)) := by
  induction k with
  | zero => intro i; simp [backoffSleeps]
  | succ k ih =>
    intro i
    show 10 * (i + 1) :: backoffSleeps (i + 1) k = _
    rw [ih (i + 1), List.range_succ_eq_map, List.map_cons, List.map_map]
    refine congrArg₂ List.cons ?_ (List.map_congr_left ?_)
    · show (10 : Nat) * (i + 1) = 10 * (i + 0 + 1)
      omega
    · intro j _
      show 10 * (i + 1 + j + 1) = 10 * (i + (j + 1) + 1)
      omega

theorem sshGo_run_success (envs : Nat → AttemptEnv) :
    ∀ (k f i : Nat) (sl : List Nat) (out : List Char), k ≤ f →
      (∀ j, j < k → ∃ e, attemptRun (envs (i + j)) = Except.error e) →
      attemptRun (envs (i + k)) = Except.ok out →
      sshGo envs f i sl =
        SshResult.success out (sl ++ backoffSleeps i k) (i + k + 1) := by
  intro k
  induction k with
  | zero =>
    intro f i sl out _ _ hok
    rw [sshGo_ok (by simpa using hok) f sl]
    simp [backoffSleeps]
  | succ k ih =>
    intro f i sl out hkf hfail hok
    obtain ⟨e, he⟩ := hfail 0 (Nat.succ_pos k)
    obtain ⟨f2, rfl⟩ : ∃ g, f = g + 1 := ⟨f - 1, by omega⟩
    rw [sshGo_fail (show attemptRun (envs i) = Except.error e by
      simpa using he) f2 sl]
    have h2 : ∀ j, j < k → ∃ e2, attemptRun (envs (i + 1 + j)) =
        Except.error e2 := by
      intro j hj
      have h3 := hfail (j + 1) (by omega)
      have hidx : i + (j + 1) = i + 1 + j := by omega
      rwa [hidx] at h3
    have hok2 : attemptRun (envs (i + 1 + k)) = Except.ok out := by
      have hidx : i + (k + 1) = i + 1 + k := by omega
      rwa [hidx] at hok
    rw [ih f2 (i + 1) (sl ++ [10 * (i + 1)]) out (by omega) h2 hok2]
    rw [show (sl ++ [10 * (i + 1)]) ++ backoffSleeps (i + 1) k =
        sl ++ backoffSleeps i (k + 1) from by
      simp [backoffSleeps, List.append_assoc]]
    rw [show i + 1 + k + 1 = i + (k + 1) + 1 from by omega]

theorem sshGo_run_exhaust (envs : Nat → AttemptEnv) :
    ∀ (f i : Nat) (sl : List Nat) (e : ProbeError),
      (∀ j, j < f → ∃ e2, attemptRun (envs (i + j)) = Except.error e2) →
      attemptRun (envs (i + f)) = Except.error e →
      sshGo envs f i sl =
        SshResult.panicked e (sl ++ backoffSleeps i f) (i + f + 1) := by
  intro f
  induction f with
  | zero =>
    intro i sl e _ he
    rw [sshGo_exhaust (by simpa using he) sl]
    simp [backoffSleeps]
  | succ f ih =>
    intro i sl e hfail he
    obtain ⟨e0, he0⟩ := hfail 0 (Nat.succ_pos f)
    rw [sshGo_fail (show attemptRun (envs i) = Except.error e0 by
      simpa using he0) f sl]
    have h2 : ∀ j, j < f → ∃ e2, attemptRun (envs (i + 1 + j)) =
        Except.error e2 := by
      intro j hj
      have h3 := hfail (j + 1) (by omega)
      have hidx : i + (j + 1) = i + 1 + j := by omega
      rwa [hidx] at h3
    have he2 : attemptRun (envs (i + 1 + f)) = Except.error e := by
      have hidx : i + (f + 1) = i + 1 + f := by omega
      rwa [hidx] at he
    rw [ih (i + 1) (sl ++ [10 * (i + 1)]) e h2 he2]
    rw [show (sl ++ [10 * (i + 1)]) ++ backoffSleeps (i + 1) f =
        sl ++ backoffSleeps i (f + 1) from by
      simp [backoffSleeps, List.append_assoc]]
    rw [show i + 1 + f + 1 = i + (f + 1) + 1 from by omega]

/-! ## Claim theorems: the probe loop -/

/-- Claim C1: in Guest::ssh_command, for every failure count n in
[1,6) the probe sleeps exactly 10 * n seconds after the n-th failed
attempt and then retries; once the failure counter reaches 6 the call
panics surfacing the last error, with no seventh attempt and no
further sleep; a successful attempt breaks out of the loop at once
without sleeping.  Formally: a run whose first k attempts fail
(k < 6) and whose attempt k succeeds performs exactly the sleeps
10 * 1, ..., 10 * k and k + 1 attempts; a run whose first six attempts
all fail panics with the sixth error after sleeps 10, 20, 30, 40, 50
and exactly 6 attempts. -/
theorem c1_probe_backoff (envs : Nat → AttemptEnv) :
    (∀ k out, k < 6 →
      (∀ j, j < k → ∃ e, attemptRun (envs j) = Except.error e) →
      attemptRun (envs k) = Except.ok out →
      sshCommand envs =
        SshResult.success out ((List.range k).map (fun j => 10 * (j + 1)))
          (k + 1))
    ∧ (∀ e, (∀ j, j < 5 → ∃ e2, attemptRun (envs j) = Except.error e2) →
      attemptRun (envs 5) = Except.error e →
      sshCommand envs = SshResult.panicked e [10, 20, 30, 40, 50] 6) := by
  constructor
  · intro k out hk hfail hok
    have h := sshGo_run_success envs k 5 0 [] out (by omega)
      (by simpa using hfail) (by simpa using hok)
    rw [sshCommand, h, backoffSleeps_eq]
    simp
  · intro e hfail he
    have h := sshGo_run_exhaust envs 5 0 [] e
      (by simpa using hfail) (by simpa using he)
    rw [sshCommand, h]
    simp [backoffSleeps]

theorem c1_probe_backoff_witness :
    sshCommand (fun _ => readFailEnv) =
      SshResult.success "par".toList [] 1
    ∧ sshCommand (fun _ => connRefusedEnv) =
      SshResult.panicked ProbeError.Connection [10, 20, 30, 40, 50] 6 := by
  constructor
  · have h := (c1_probe_backoff (fun _ => readFailEnv)).1 0 "par".toList
      (by omega) (fun j hj => absurd hj (by omega)) (by rfl)
    simpa using h
  · exact (c1_probe_backoff (fun _ => connRefusedEnv)).2
      ProbeError.Connection (fun j _ => ⟨ProbeError.Connection, rfl⟩) rfl

/-- Worst-case backoff sleep still ahead when f further failures are
allowed after attempt i. -/
def backoffBudget : Nat → Nat → Nat
  | 0, _ => 0
  | f + 1, i => 10 * (i + 1) + backoffBudget f (i + 1)

theorem sshGo_sleepTotal_le (envs : Nat → AttemptEnv) :
    ∀ (f i : Nat) (sl : List Nat),
      (sshGo envs f i sl).sleepTotal ≤ sl.sum + backoffBudget f i := by
  intro f
  induction f with
  | zero =>
    intro i sl
    cases h : attemptRun (envs i) with
    | ok out =>
      rw [sshGo_ok h 0 sl]
      simp [SshResult.sleepTotal, SshResult.sleepList, backoffBudget]
    | error e =>
      rw [sshGo_exhaust h sl]
      simp [SshResult.sleepTotal, SshResult.sleepList, backoffBudget]
  | succ f ih =>
    intro i sl
    cases h : attemptRun (envs i) with
    | ok out =>
      rw [sshGo_ok h (f + 1) sl]
      simp [SshResult.sleepTotal, SshResult.sleepList, backoffBudget]
    | error e =>
      rw [sshGo_fail h f sl]
      have h2 := ih (i + 1) (sl ++ [10 * (i + 1)])
      calc (sshGo envs f (i + 1) (sl ++ [10 * (i + 1)])).sleepTotal
          ≤ (sl ++ [10 * (i + 1)]).sum + backoffBudget f (i + 1) := h2
        _ = sl.sum + backoffBudget (f + 1) i := by
            simp [backoffBudget]
            omega

/-- Claim C8: across one ssh_command call the total backoff sleep time
is at most 10 * (1 + 2 + 3 + 4 + 5) = 150 seconds, whatever the attempt
outcomes. -/
theorem c8_total_backoff_bound (envs : Nat → AttemptEnv) :
    (sshCommand envs).sleepTotal ≤ 150 := by
  have h := sshGo_sleepTotal_le envs 5 0 []
  simpa [sshCommand, backoffBudget] using h

/-- Claim C5: each probe attempt classifies its failure by stage — a
failed TCP connect or handshake yields Connection, a failed password
authentication yields Authentication, a failed channel open or command
execution yields Command — and when the retry budget is exhausted the
surfaced error is the kind of the last failed attempt. -/
theorem c5_error_classification (env : AttemptEnv)
    (envs : Nat → AttemptEnv) :
    (env.connectOk = false →
      attemptRun env = Except.error ProbeError.Connection)
    ∧ (env.connectOk = true → env.handshakeOk = false →
      attemptRun env = Except.error ProbeError.Connection)
    ∧ (env.connectOk = true → env.handshakeOk = true →
      env.authOk = false →
      attemptRun env = Except.error ProbeError.Authentication)
    ∧ (env.connectOk = true → env.handshakeOk = true →
      env.authOk = true → env.channelOk = false →
      attemptRun env = Except.error ProbeError.Command)
    ∧ (env.connectOk = true → env.handshakeOk = true →
      env.authOk = true → env.channelOk = true → env.execOk = false →
      attemptRun env = Except.error ProbeError.Command)
    ∧ (∀ e, (∀ j, j < 5 → ∃ e2, attemptRun (envs j) = Except.error e2) →
      attemptRun (envs 5) = Except.error e →
      (sshCommand envs).errorKind = some e) := by
  refine ⟨?_, ?_, ?_, ?_, ?_, ?_⟩
  · intro h1; simp [attemptRun, h1]
  · intro h1 h2; simp [attemptRun, h1, h2]
  · intro h1 h2 h3; simp [attemptRun, h1, h2, h3]
  · intro h1 h2 h3 h4; simp [attemptRun, h1, h2, h3, h4]
  · intro h1 h2 h3 h4 h5; simp [attemptRun, h1, h2, h3, h4, h5]
  · intro e hfail he
    have h := sshGo_run_exhaust envs 5 0 [] e
      (by simpa using hfail) (by simpa using he)
    rw [sshCommand, h]
    simp [SshResult.errorKind]

theorem c5_error_classification_witness :
    attemptRun connRefusedEnv = Except.error ProbeError.Connection
    ∧ attemptRun handshakeFailEnv = Except.error ProbeError.Connection
    ∧ attemptRun authFailEnv = Except.error ProbeError.Authentication
    ∧ attemptRun channelFailEnv = Except.error ProbeError.Command
    ∧ attemptRun execFailEnv = Except.error ProbeError.Command
    ∧ (sshCommand (fun _ => authFailEnv)).errorKind =
        some ProbeError.Authentication := by
  refine ⟨?_, ?_, ?_, ?_, ?_, ?_⟩
  · exact (c5_error_classification connRefusedEnv
      (fun _ => connRefusedEnv)).1 rfl
  · exact (c5_error_classification handshakeFailEnv
      (fun _ => connRefusedEnv)).2.1 rfl rfl
  · exact (c5_error_classification authFailEnv
      (fun _ => connRefusedEnv)).2.2.1 rfl rfl rfl
  · exact (c5_error_classification channelFailEnv
      (fun _ => connRefusedEnv)).2.2.2.1 rfl rfl rfl rfl
  · exact (c5_error_classification execFailEnv
      (fun _ => connRefusedEnv)).2.2.2.2.1 rfl rfl rfl rfl rfl
  · exact (c5_error_classification execFailEnv
      (fun _ => authFailEnv)).2.2.2.2.2 ProbeError.Authentication
      (fun j _ => ⟨ProbeError.Authentication, rfl⟩) rfl

/-- Claim C6: after a probe attempt successfully executes the remote
command, failures of reading the output, closing the channel, or
waiting for the channel close are tolerated — the attempt returns Ok
with whatever (possibly partial or empty) output was captured, so the
call breaks out of the loop with no retry and no sleep. -/
theorem c6_post_exec_tolerated (env : AttemptEnv)
    (envs : Nat → AttemptEnv) :
    env.connectOk = true → env.handshakeOk = true → env.authOk = true →
    env.channelOk = true → env.execOk = true →
    attemptRun env = Except.ok env.output
    ∧ (∀ b c d,
      attemptRun
        { env with readOk := b, closeOk := c, waitCloseOk := d } =
          Except.ok env.output)
    ∧ (envs 0 = env →
      sshCommand envs = SshResult.success env.output [] 1) := by
  intro h1 h2 h3 h4 h5
  have hok : attemptRun env = Except.ok env.output := by
    simp [attemptRun, h1, h2, h3, h4, h5]
  refine ⟨hok, ?_, ?_⟩
  · intro b c d
    simp [attemptRun, h1, h2, h3, h4, h5]
  · intro h0
    have h6 : attemptRun (envs 0) = Except.ok env.output := by
      rw [h0]; exact hok
    rw [sshCommand, sshGo_ok h6 5 []]

theorem c6_post_exec_tolerated_witness :
    attemptRun readFailEnv = Except.ok "par".toList
    ∧ sshCommand (fun _ => readFailEnv) =
        SshResult.success "par".toList [] 1 := by
  have h := c6_post_exec_tolerated readFailEnv (fun _ => readFailEnv)
    rfl rfl rfl rfl rfl
  exact ⟨h.1, h.2.2 rfl⟩

/-! ## Lemmas about the replacement scan -/

theorem repGo_nil (pat rep : List Char) (k : Nat) :
    repGo pat rep k [] = [] := by
  cases k <;> rfl

theorem repGo_succ (pat rep : List Char) (k : Nat) (c : Char)
    (rest : List Char) :
    repGo pat rep (k + 1) (c :: rest) = repGo pat rep k rest := rfl

theorem repGo_zero (pat rep : List Char) (c : Char) (rest : List Char) :
    repGo pat rep 0 (c :: rest) =
      if pat.isPrefixOf (c :: rest) then
        rep ++ repGo pat rep (pat.length - 1) rest
      else
        c :: repGo pat rep 0 rest := rfl

/-- A positive skip state just discards characters before the scan
resumes. -/
theorem repGo_skip (pat rep : List Char) :
    ∀ (s : List Char) (k : Nat),
      repGo pat rep k s = repGo pat rep 0 (s.drop k) := by
  intro s
  induction s with
  | nil => intro k; rw [repGo_nil, List.drop_nil, repGo_nil]
  | cons c rest ih =>
    intro k
    cases k with
    | zero => rfl
    | succ k => rw [repGo_succ, ih k]; rfl

/-- Replacing a nonempty pattern by itself is the identity. -/
theorem repGo_self (pat : List Char) (hpat : pat ≠ []) :
    ∀ (n : Nat) (s : List Char), s.length ≤ n → repGo pat pat 0 s = s := by
  intro n
  induction n with
  | zero =>
    intro s hs
    rw [List.eq_nil_of_length_eq_zero (Nat.le_zero.mp hs), repGo_nil]
  | succ n ih =>
    intro s hs
    cases s with
    | nil => rw [repGo_nil]
    | cons c rest =>
      rw [repGo_zero]
      by_cases h : pat.isPrefixOf (c :: rest)
      · rw [if_pos h]
        obtain ⟨t, ht⟩ := List.isPrefixOf_iff_prefix.mp h
        obtain ⟨p, pat2, rfl⟩ : ∃ p pat2, pat = p :: pat2 := by
          cases pat with
          | nil => exact absurd rfl hpat
          | cons p pat2 => exact ⟨p, pat2, rfl⟩
        have htail : pat2 ++ t = rest := by injection ht
        rw [repGo_skip]
        have hdrop : rest.drop ((p :: pat2).length - 1) = t := by
          rw [← htail]
          simp
        rw [hdrop, ih t (by
          have h1 : rest.length ≤ n := by simpa using hs
          have h2 : t.length ≤ rest.length := by
            rw [← htail, List.length_append]; omega
          omega)]
        exact ht
      · rw [if_neg h]
        have h1 : rest.length ≤ n := by simpa using hs
        rw [ih rest h1]

/-- Joining the characters of s back together yields s. -/
theorem flatten_map_singleton :
    ∀ s : List Char, (s.map (fun c => [c])).flatten = s := by
  intro s
  induction s with
  | nil => rfl
  | cons c rest ih => simp [ih]

/-- Rust String::replace of a pattern by the pattern itself is the
identity, for every pattern including the empty one. -/
theorem rustReplace_self (s pat : List Char) : rustReplace s pat pat = s := by
  by_cases h : pat.isEmpty
  · have hnil : pat = [] := List.isEmpty_iff.mp h
    subst hnil
    rw [rustReplace, if_pos h, List.nil_append]
    exact flatten_map_singleton s
  · rw [rustReplace, if_neg h]
    have hpat : pat ≠ [] := by
      intro hc; rw [hc] at h; exact h rfl
    exact repGo_self pat hpat s.length s (Nat.le_refl _)

/-! ## Claim theorems: image composition -/

/-- Claim C2 as stated is false: substitution is not total for all
identity values.  The very values Guest::new passes — host_ip, guest_ip
and guest_mac equal to the placeholder tokens themselves — leave every
placeholder occurrence of the template in the rendered payload, shown
here on a template containing the host placeholder. -/
theorem c2_counterexample :
    hostPlaceholder <:+:
      (prepareCloudinit
        { metaData := [], userData := "ip 192.168.2.1".toList }
        hostPlaceholder guestPlaceholder macPlaceholder).userData := by
  decide

/-- Claim C2 (amended): substitution replaces every leftmost
non-overlapping occurrence of each placeholder with the corresponding
identity value, but it is not total for all inputs; in particular every
scenario in the code uses the identity values of Guest::new, which are
exactly the placeholder tokens, so the substitution is the identity
map and the rendered user_data payload equals the template byte for
byte — a placeholder token survives exactly when the template contains
it. -/
theorem c2_default_substitution_is_identity (tpl : CloudInitTemplate) :
    prepareCloudinit tpl hostPlaceholder guestPlaceholder macPlaceholder =
      { metaData := tpl.metaData, userData := tpl.userData } := by
  show CloudInitImage.mk tpl.metaData
      (renderUserData tpl.userData hostPlaceholder guestPlaceholder
        macPlaceholder) = _
  rw [renderUserData, rustReplace_self, rustReplace_self, rustReplace_self]

/-- Claim C10: during configuration-image composition only user_data
undergoes placeholder substitution; meta_data.json is carried into the
image content byte for byte unchanged, for every scenario identity. -/
theorem c10_meta_data_copied_unchanged (tpl : CloudInitTemplate)
    (hostIp guestIp guestMac : List Char) :
    (prepareCloudinit tpl hostIp guestIp guestMac).metaData = tpl.metaData
    ∧ (prepareCloudinit tpl hostIp guestIp guestMac).userData =
        renderUserData tpl.userData hostIp guestIp guestMac :=
  ⟨rfl, rfl⟩

/-- Claim C4: the composed artifact-path list of prepare_files has the
fixed order — index 0 the primary system disk, index 1 the generated
configuration disk, index 2 the raw variant of the system disk — for
every scenario workspace. -/
theorem c4_artifact_order (tmpDir : String) :
    (prepareFilesDisks tmpDir).length = 3
    ∧ (prepareFilesDisks tmpDir)[0]? = some (osdiskPath tmpDir)
    ∧ (prepareFilesDisks tmpDir)[1]? = some (cloudinitDiskPath tmpDir)
    ∧ (prepareFilesDisks tmpDir)[2]? = some (osdiskRawPath tmpDir) :=
  ⟨rfl, rfl, rfl, rfl⟩

/-! ## Claim theorems: process cleanup -/

/-- Claim C7: terminate kills and reaps while ignoring kill and reap
errors: it always yields the terminal reaped state, calling it twice is
the same as calling it once even though the second kill raises an
already-reaped error internally, and terminating one handle leaves
every other handle unchanged. -/
theorem c7_terminate_idempotent (c : ChildHandle) (hs : Nat → ChildHandle)
    (p q : Nat) :
    terminate c = { alive := false, reaped := true }
    ∧ terminate (terminate c) = terminate c
    ∧ childKill { alive := false, reaped := true } =
        Except.error OsError.invalidInput
    ∧ (q ≠ p → terminateAt hs p q = hs q) := by
  refine ⟨rfl, rfl, rfl, ?_⟩
  intro h
  rw [terminateAt, if_neg h]

theorem c7_terminate_idempotent_witness :
    terminate { alive := true, reaped := false } =
      { alive := false, reaped := true }
    ∧ terminate (terminate { alive := true, reaped := false }) =
        terminate { alive := true, reaped := false }
    ∧ terminateAt (fun _ => ChildHandle.mk true false) 0 1 =
        ChildHandle.mk true false := by
  have h := c7_terminate_idempotent (ChildHandle.mk true false)
    (fun _ => ChildHandle.mk true false) 0 1
  exact ⟨h.1, h.2.1, h.2.2.2 (by decide)⟩

/-! ## Claim theorems: scenario teardown -/

/-- Claim C3 as stated is false: when a probe exhausts its retry
budget, ssh_command panics, unwinding drops the Child handle without
killing the process (dropping std::process::Child does not kill), and
then drops the Guest, removing the TempDir — so on that exit path the
spawned hypervisor process is never killed nor reaped although the
workspace teardown runs. -/
theorem c3_counterexample :
    ScenarioEvent.killChild ∉ scenarioTrace [] [ProbeOutcome.exhausted]
    ∧ ScenarioEvent.reapChild ∉ scenarioTrace [] [ProbeOutcome.exhausted]
    ∧ ScenarioEvent.removeTmpDir ∈
        scenarioTrace [] [ProbeOutcome.exhausted]
    ∧ ScenarioEvent.spawnChild ∈
        scenarioTrace [] [ProbeOutcome.exhausted] := by
  decide

/-- Claim C3 (amended): on normal completion, and on assertion failure
— whose panic the credibility test block defers past the cleanup lines
— the spawned process is killed and reaped before the workspace is
removed; but on the probe-exhaustion path the panic unwinds without
any kill or reap and the workspace is still removed, so the spawned
process can remain alive after teardown. -/
theorem c3_cleanup_paths (avers : List Bool) (probes : List ProbeOutcome) :
    (probesComplete probes = true →
      scenarioTrace avers probes =
        [ScenarioEvent.spawnChild, ScenarioEvent.killChild,
          ScenarioEvent.reapChild, ScenarioEvent.removeTmpDir])
    ∧ (probesComplete probes = false →
      scenarioTrace avers probes =
        [ScenarioEvent.spawnChild, ScenarioEvent.removeTmpDir]
      ∧ ScenarioEvent.killChild ∉ scenarioTrace avers probes
      ∧ ScenarioEvent.removeTmpDir ∈ scenarioTrace avers probes) := by
  constructor
  · intro h
    simp [scenarioTrace, h]
  · intro h
    refine ⟨by simp [scenarioTrace, h], ?_, ?_⟩
    · simp [scenarioTrace, h]
    · simp [scenarioTrace, h]

theorem c3_cleanup_paths_witness :
    scenarioTrace [true, false]
        [ProbeOutcome.completed, ProbeOutcome.completed] =
      [ScenarioEvent.spawnChild, ScenarioEvent.killChild,
        ScenarioEvent.reapChild, ScenarioEvent.removeTmpDir]
    ∧ (scenarioTrace [true, false] [ProbeOutcome.exhausted] =
        [ScenarioEvent.spawnChild, ScenarioEvent.removeTmpDir]
      ∧ ScenarioEvent.killChild ∉
          scenarioTrace [true, false] [ProbeOutcome.exhausted]
      ∧ ScenarioEvent.removeTmpDir ∈
          scenarioTrace [true, false] [ProbeOutcome.exhausted]) := by
  constructor
  · exact (c3_cleanup_paths [true, false]
      [ProbeOutcome.completed, ProbeOutcome.completed]).1 rfl
  · exact (c3_cleanup_paths [true, false] [ProbeOutcome.exhausted]).2 rfl

/-! ## Claim theorems: fatal errors of main -/

/-- Claim C9 as stated is false for the missing-kernel path: the
diagnostic of the expect panic at main.rs line 107 goes to standard
error, not standard output (the exit status is still non-zero). -/
theorem c9_counterexample :
    (mainRun VmRunCase.missingKernel).diagChannel = some OutChannel.stderr
    ∧ some OutChannel.stderr ≠ some OutChannel.stdout
    ∧ (mainRun VmRunCase.missingKernel).exitCode = some 101 := by
  refine ⟨rfl, by decide, rfl⟩

/-- Claim C9 (amended): every fatal path of main exits with a non-zero
status after printing a descriptive diagnostic that includes the error;
configuration-parse failures and boot failures print on standard
output, while a missing kernel argument panics through expect and its
diagnostic goes to standard error. -/
theorem c9_fatal_paths (errp errb : List Char) :
    ((mainRun (VmRunCase.parseFailure errp)).exitCode = some 1
      ∧ (mainRun (VmRunCase.parseFailure errp)).diagChannel =
          some OutChannel.stdout
      ∧ (∃ m, (mainRun (VmRunCase.parseFailure errp)).diagMessage = some m
          ∧ errp <:+: m))
    ∧ ((mainRun (VmRunCase.bootFailure errb)).exitCode = some 1
      ∧ (mainRun (VmRunCase.bootFailure errb)).diagChannel =
          some OutChannel.stdout
      ∧ (∃ m, (mainRun (VmRunCase.bootFailure errb)).diagMessage = some m
          ∧ errb <:+: m))
    ∧ ((mainRun VmRunCase.missingKernel).exitCode = some 101
      ∧ (mainRun VmRunCase.missingKernel).diagChannel =
          some OutChannel.stderr
      ∧ (∃ m, (mainRun VmRunCase.missingKernel).diagMessage = some m
          ∧ "Missing argument: kernel".toList <:+: m)) := by
  refine ⟨⟨rfl, rfl, ?_⟩, ⟨rfl, rfl, ?_⟩, ⟨rfl, rfl, ?_⟩⟩
  · exact ⟨_, rfl, "Failed parsing parameters ".toList, [], by simp⟩
  · exact ⟨_, rfl, "Guest boot failed: ".toList, [], by simp⟩
  · exact ⟨panicDiagnostic, rfl, by decide⟩

end CHarness
